import Mathlib

/-!
Shallow embedding of the audior audio-capture core (src/lib.rs, src/main.rs,
src/cli.rs) and verification of its specified properties.

Conventions of the embedding:
* `cpal` backend effects (device resolution, stream construction success,
  disk writes) are passed in as explicit oracle arguments.
* A real-time callback panic (`expect` on a failed sample write, which
  aborts the process via the `fail!` macro path) is modelled as `none` in an
  `Option`-valued result; `some s` means the call returned normally with
  post-state `s`.
* Machine sample values are kept abstract: the write path is generic in the
  sample type `T`, exactly as `write_wav_data<T>` is in the source.
-/

namespace Audiort

/-- cpal::SampleFormat — the runtime sample-format tags of the backend. -/
inductive SampleFormat where
  | i8 | i16 | i32 | i64
  | u8 | u16 | u32 | u64
  | f32 | f64
  deriving DecidableEq, Repr

/-- cpal::SampleFormat::sample_size — byte width of one sample. -/
def SampleFormat.sample_size : SampleFormat → Nat
  | .i8 => 1 | .i16 => 2 | .i32 => 4 | .i64 => 8
  | .u8 => 1 | .u16 => 2 | .u32 => 4 | .u64 => 8
  | .f32 => 4 | .f64 => 8

/-- cpal::SampleFormat::is_float. -/
def SampleFormat.is_float : SampleFormat → Bool
  | .f32 => true
  | .f64 => true
  | _ => false

/-- cpal::SupportedStreamConfig, restricted to the fields the program reads:
channels(), sample_rate().0 and sample_format(). -/
structure SupportedStreamConfig where
  channels : Nat
  sample_rate : Nat
  sample_format : SampleFormat
  deriving DecidableEq, Repr

/-- hound::SampleFormat. -/
inductive HoundSampleFormat where
  | float
  | int
  deriving DecidableEq, Repr

/-- hound::WavSpec — the WAV header fields. -/
structure WavSpec where
  channels : Nat
  sample_rate : Nat
  bits_per_sample : Nat
  sample_format : HoundSampleFormat
  deriving DecidableEq, Repr

/-- WavExt::as_wav_spec for SupportedStreamConfig (src/lib.rs 31-44). -/
def as_wav_spec (c : SupportedStreamConfig) : WavSpec :=
  { channels := c.channels
    sample_rate := c.sample_rate
    bits_per_sample := c.sample_format.sample_size * 8
    sample_format :=
      if c.sample_format.is_float then HoundSampleFormat.float
      else HoundSampleFormat.int }

/-- enum Device (src/lib.rs 46-50). -/
inductive Device where
  | Input
  | Output
  deriving DecidableEq, Repr

/-- enum Error (src/lib.rs 58-68). -/
inductive Error where
  | DefaultInputDeviceError
  | DefaultOutputDeviceError
  | DefaultConfigError
  | StreamConfigFormatError
  | StreamCreationError
  | OutputLockError
  | WriterCreationError (msg : String)
  | PlayError
  deriving DecidableEq, Repr

/-- The backend device (cpal::Device) as the program observes it: its
default input / output configurations, `none` when the query fails. -/
structure CpalDevice where
  input_config : Option SupportedStreamConfig
  output_config : Option SupportedStreamConfig
  deriving DecidableEq, Repr

/-- struct DeviceBuilder (src/lib.rs 52-56). -/
structure DeviceBuilder where
  kind : Device
  inner : CpalDevice
  config : SupportedStreamConfig
  deriving DecidableEq, Repr

/-- DeviceBuilder::new_default_input (src/lib.rs 90-105); the default input
device of the host is the oracle argument. -/
def new_default_input (host_default_input : Option CpalDevice) :
    Except Error DeviceBuilder :=
  match host_default_input with
  | none => .error .DefaultInputDeviceError
  | some device =>
    match device.input_config with
    | none => .error .DefaultConfigError
    | some config => .ok { kind := .Input, inner := device, config := config }

/-- DeviceBuilder::new_default_output (src/lib.rs 107-122). -/
def new_default_output (host_default_output : Option CpalDevice) :
    Except Error DeviceBuilder :=
  match host_default_output with
  | none => .error .DefaultOutputDeviceError
  | some device =>
    match device.output_config with
    | none => .error .DefaultConfigError
    | some config => .ok { kind := .Output, inner := device, config := config }

/-- DeviceBuilder::use_config (src/lib.rs 136-139). -/
def use_config (d : DeviceBuilder) (config : SupportedStreamConfig) :
    DeviceBuilder :=
  { d with config := config }

/-- A built cpal::Stream as write_wav constructs it: the stream config passed
to the backend (`&self.config`), which registration function was invoked
(build_input_stream vs build_output_stream), and the statically chosen
callback sample type. -/
structure Stream where
  config : SupportedStreamConfig
  direction : Device
  sample_type : SampleFormat
  deriving DecidableEq, Repr

/-- struct StreamBuilder (src/lib.rs 142-149).  The mpsc endpoints are only
ever set by the unfinished `write_to`; their payload is irrelevant here. -/
structure StreamBuilder where
  device : DeviceBuilder
  config : SupportedStreamConfig
  stream : Option Stream
  sender : Option Unit
  receiver : Option Unit
  kind : Device
  deriving DecidableEq, Repr

/-- StreamBuilder::from (src/lib.rs 154-176).  Note: the `config` field of
the new builder is re-queried from the default configuration of the inner
device; it is not copied from the (possibly overridden) `config` field of
the DeviceBuilder. -/
def StreamBuilder.from (device : DeviceBuilder) : Except Error StreamBuilder :=
  let kind := device.kind
  let queried :=
    match device.kind with
    | .Input => device.inner.input_config
    | .Output => device.inner.output_config
  match queried with
  | none => .error .DefaultConfigError
  | some config =>
    .ok { device := device, config := config, stream := none,
          sender := none, receiver := none, kind := kind }

/-- StreamBuilder::as_input (src/lib.rs 178-181). -/
def as_input (s : StreamBuilder) : StreamBuilder :=
  { s with kind := .Input }

/-- StreamBuilder::as_output (src/lib.rs 183-186). -/
def as_output (s : StreamBuilder) : StreamBuilder :=
  { s with kind := .Output }

/-- The state of a hound::WavWriter: the WavSpec written into the header at
creation, and the log of sample values written so far (generic in the
sample type, as the write path is). -/
structure WavWriterFile (T : Type) where
  spec : WavSpec
  samples : List T
  deriving DecidableEq, Repr

/-- A std::sync::Mutex with its poison flag made explicit. -/
structure MutexState (A : Type) where
  poisoned : Bool
  value : A
  deriving DecidableEq, Repr

/-- Mutex::lock — `Ok(guard)` when the mutex is not poisoned. -/
def MutexState.lock {A : Type} (m : MutexState A) : Option A :=
  if m.poisoned then none else some m.value

/-- The shared writer slot, `Arc<Mutex<Option<WavWriter<_>>>>`
(src/lib.rs 151). -/
def WriterSlot (T : Type) : Type := MutexState (Option (WavWriterFile T))

/-- The cpal `FromSample<T> for T` conversion, as invoked by
`T::from_sample(d)` at the same type: the identity. -/
def from_sample {T : Type} (d : T) : T := d

/-- write_wav_data (src/lib.rs 312-325).  Oracle `disk_ok` says whether a
sample write to the underlying file succeeds; a failed write hits
`.expect("failed to write sample")`, modelled as `none` (process abort).
On `some s`, the call returned normally with slot state `s`. -/
def write_wav_data {T : Type} (data : List T) (writer : WriterSlot T)
    (disk_ok : Bool) : Option (WriterSlot T) :=
  match writer.lock with
  | none => some writer
  | some slot =>
    match slot with
    | none => some writer
    | some w =>
      if disk_ok = false ∧ data.isEmpty = false then none
      else
        some { writer with
               value := some { w with
                 samples := w.samples ++ data.map (fun d => from_sample d) } }

/-- A sequence of callback invocations: write_wav_data once per buffer, in
order, stopping (`none`) if any invocation aborts. -/
def run_appends {T : Type} (buffers : List (List T)) (writer : WriterSlot T) :
    Option (WriterSlot T) :=
  match buffers with
  | [] => some writer
  | b :: rest =>
    match write_wav_data b writer true with
    | none => none
    | some writer1 => run_appends rest writer1

/-- The result of StreamBuilder::write_wav: `file` is the header spec of the
file created on disk by hound::WavWriter::create (`none` when creation
failed — in every other outcome the file exists and is not removed);
`builder` is the post-state of `self`; `result` is the returned value, with
`Ok` carrying the header spec held by the writer put into the shared slot
(the slot starts occupied and with no samples written). -/
structure WriteWavResult where
  file : Option WavSpec
  builder : StreamBuilder
  result : Except Error WavSpec
  deriving Repr

/-- The closed set of sample-format tags write_wav dispatches on: in each
direction the match arms cover exactly F32, I32, I16, I8, every other tag
falling to `_ => return Err(Error::StreamConfigFormatError)`. -/
def dispatch_sample_type : SampleFormat → Option SampleFormat
  | .f32 => some .f32
  | .i32 => some .i32
  | .i16 => some .i16
  | .i8 => some .i8
  | _ => none

/-- StreamBuilder::write_wav (src/lib.rs 228-271).  Oracles: `create_ok` is
the outcome of hound::WavWriter::create (`.error msg` when the file cannot
be created), `backend_ok` whether the backend accepts the stream in
build_input_stream / build_output_stream.  The header spec comes from
`self.device.config()`, the dispatch and the stream config from
`self.config`. -/
def write_wav (s : StreamBuilder) (create_ok : Except String Unit)
    (backend_ok : Bool) : WriteWavResult :=
  match create_ok with
  | .error e =>
    { file := none, builder := s, result := .error (.WriterCreationError e) }
  | .ok _ =>
    let spec := as_wav_spec s.device.config
    match s.kind with
    | .Input =>
      match dispatch_sample_type s.config.sample_format with
      | none =>
        { file := some spec, builder := s,
          result := .error .StreamConfigFormatError }
      | some t =>
        let st : Stream :=
          { config := s.config, direction := .Input, sample_type := t }
        if backend_ok then
          { file := some spec, builder := { s with stream := some st },
            result := .ok spec }
        else
          { file := some spec, builder := s,
            result := .error .StreamCreationError }
    | .Output =>
      match dispatch_sample_type s.config.sample_format with
      | none =>
        { file := some spec, builder := s,
          result := .error .StreamConfigFormatError }
      | some t =>
        let st : Stream :=
          { config := s.config, direction := .Output, sample_type := t }
        if backend_ok then
          { file := some spec, builder := { s with stream := some st },
            result := .ok spec }
        else
          { file := some spec, builder := s,
            result := .error .StreamCreationError }

/-- StreamBuilder::play (src/lib.rs 303-309).  Oracle `play_ok`: whether
cpal::Stream::play succeeds on the held stream. -/
def play (s : StreamBuilder) (play_ok : Bool) : Except Error Unit :=
  match s.stream with
  | none => .ok ()
  | some _ => if play_ok then .ok () else .error .PlayError

/-- The finalize path of main (src/main.rs 82-89): lock the slot, `take()`
the writer out, and finalize it.  Returns the new slot state, whether the
file was flushed-and-closed by this call, and the propagated result
(`writer.finalize()?`, with `disk_ok` the oracle for that flush). -/
def finalize {T : Type} (writer : WriterSlot T) (disk_ok : Bool) :
    WriterSlot T × Bool × Except String Unit :=
  match writer.lock with
  | none => (writer, false, .ok ())
  | some slot =>
    match slot with
    | none => ({ writer with value := none }, false, .ok ())
    | some _ =>
      ({ writer with value := none }, true,
       if disk_ok then .ok () else .error "finalize failed")

/-- do_delay (src/cli.rs 133-153): the sequence of thread sleeps performed,
in milliseconds, in order.  The countdown loop `for count in (1..=delay)
.rev()` sleeps one second per iteration; afterwards the final half-second
pause runs unconditionally inside the `if let Some`.  The inline delay in
main (src/main.rs 61-74) has the identical sleep structure. -/
def do_delay_sleeps : Option Nat → List Nat
  | none => []
  | some delay => (List.range delay).map (fun _ => 1000) ++ [500]

/-! Concrete fixtures used to instantiate theorems with hypotheses. -/

/-- A float native configuration: stereo, 44100 Hz, f32. -/
def cfg_f32 : SupportedStreamConfig :=
  { channels := 2, sample_rate := 44100, sample_format := .f32 }

/-- An integer configuration: mono, 8000 Hz, i16. -/
def cfg_i16 : SupportedStreamConfig :=
  { channels := 1, sample_rate := 8000, sample_format := .i16 }

/-- A configuration whose format is outside the dispatched set: u16. -/
def cfg_u16 : SupportedStreamConfig :=
  { channels := 2, sample_rate := 44100, sample_format := .u16 }

/-- A backend device whose default configuration in both directions is
`cfg_f32`. -/
def dev0 : CpalDevice :=
  { input_config := some cfg_f32, output_config := some cfg_f32 }

/-- The DeviceBuilder produced by new_default_input on `dev0`. -/
def db0 : DeviceBuilder :=
  { kind := .Input, inner := dev0, config := cfg_f32 }

/-- The StreamBuilder produced by StreamBuilder::from on `db0`. -/
def sb_f32 : StreamBuilder :=
  { device := db0, config := cfg_f32, stream := none,
    sender := none, receiver := none, kind := .Input }

/-- A StreamBuilder over a device whose format is the undispatched u16. -/
def sb_u16 : StreamBuilder :=
  { device := { kind := .Input,
                inner := { input_config := some cfg_u16, output_config := none },
                config := cfg_u16 },
    config := cfg_u16, stream := none,
    sender := none, receiver := none, kind := .Input }

/-- A header spec used by writer-slot fixtures. -/
def spec0 : WavSpec :=
  { channels := 2, sample_rate := 44100, bits_per_sample := 16,
    sample_format := .int }

/-! Helper lemmas. -/

/-- One callback invocation on an occupied, unpoisoned slot with a healthy
disk appends exactly the buffer. -/
lemma write_wav_data_occupied {T : Type} (data : List T) (w : WavWriterFile T) :
    write_wav_data data ⟨false, some w⟩ true =
      some ⟨false, some ⟨w.spec, w.samples ++ data⟩⟩ := by
  simp [write_wav_data, MutexState.lock, from_sample]

/-! Claim theorems. -/

/-- C2: for every sample type and every sequence of buffers, the append path
(write_wav_data), run once per buffer while the writer slot is occupied,
writes exactly the input samples, unchanged and in order: the final sample
log is the previous log followed by the concatenation of the buffers. -/
theorem C2_append_exact {T : Type} (buffers : List (List T)) (m : WriterSlot T)
    (w : WavWriterFile T) (hp : m.poisoned = false) (hv : m.value = some w) :
    run_appends buffers m =
      some ⟨false, some ⟨w.spec, w.samples ++ buffers.flatten⟩⟩ := by
  induction buffers generalizing m w with
  | nil =>
    obtain ⟨p, v⟩ := m
    subst hp
    cases hv
    simp [run_appends]
  | cons b rest ih =>
    obtain ⟨p, v⟩ := m
    subst hp
    cases hv
    rw [run_appends, write_wav_data_occupied]
    have h2 := ih ⟨false, some ⟨w.spec, w.samples ++ b⟩⟩
      ⟨w.spec, w.samples ++ b⟩ rfl rfl
    simp [h2, List.append_assoc]

/-- Witness for C2 at the end-to-end scenario of the spec: three buffers of
four i16 samples each, appended to a fresh slot. -/
theorem C2_append_exact_run :
    run_appends [[(1 : Int), -1, 2, -2], [3, -3, 4, -4], [5, -5, 6, -6]]
      ⟨false, some ⟨spec0, []⟩⟩ =
      some ⟨false, some ⟨spec0, [1, -1, 2, -2, 3, -3, 4, -4, 5, -5, 6, -6]⟩⟩ := by
  have h := C2_append_exact
    [[(1 : Int), -1, 2, -2], [3, -3, 4, -4], [5, -5, 6, -6]]
    ⟨false, some ⟨spec0, []⟩⟩ ⟨spec0, []⟩ rfl rfl
  simpa using h

/-- C3: once finalize has taken the writer out of an unpoisoned slot, a
subsequent append (write_wav_data) observes the empty slot and is a silent
no-op: it does not abort, reports nothing, and writes no samples, whatever
the state of the disk. -/
theorem C3_append_after_finalize {T : Type} (data : List T) (m : WriterSlot T)
    (d1 d2 : Bool) (hp : m.poisoned = false) :
    (finalize m d1).1.value = none ∧
    write_wav_data data (finalize m d1).1 d2 = some (finalize m d1).1 := by
  obtain ⟨p, v⟩ := m
  subst hp
  cases v <;> simp [finalize, write_wav_data, MutexState.lock]

/-- Witness for C3: finalize a populated slot, then append two samples with
a failing disk; the append returns normally and changes nothing. -/
theorem C3_append_after_finalize_run :
    ((finalize (⟨false, some ⟨spec0, [7]⟩⟩ : WriterSlot Int) true).1.value
        = none) ∧
    write_wav_data [9, 9]
        (finalize (⟨false, some ⟨spec0, [7]⟩⟩ : WriterSlot Int) true).1 false =
      some (finalize (⟨false, some ⟨spec0, [7]⟩⟩ : WriterSlot Int) true).1 :=
  C3_append_after_finalize [9, 9] ⟨false, some ⟨spec0, [7]⟩⟩ true false rfl

/-- C4: a second finalize on an unpoisoned slot observes the slot left empty
by the first, closes no file, returns no error, and leaves the slot state
unchanged — taking the writer out makes finalize idempotent. -/
theorem C4_finalize_twice {T : Type} (m : WriterSlot T) (d1 d2 : Bool)
    (hp : m.poisoned = false) :
    (finalize m d1).1.value = none ∧
    finalize (finalize m d1).1 d2 = ((finalize m d1).1, false, Except.ok ()) := by
  obtain ⟨p, v⟩ := m
  subst hp
  cases v <;> simp [finalize, MutexState.lock]

/-- Witness for C4: double finalize on a populated slot. -/
theorem C4_finalize_twice_run :
    ((finalize (⟨false, some ⟨spec0, [1, 2]⟩⟩ : WriterSlot Int) true).1.value
        = none) ∧
    finalize (finalize (⟨false, some ⟨spec0, [1, 2]⟩⟩ : WriterSlot Int) true).1
        true =
      ((finalize (⟨false, some ⟨spec0, [1, 2]⟩⟩ : WriterSlot Int) true).1,
       false, Except.ok ()) :=
  C4_finalize_twice ⟨false, some ⟨spec0, [1, 2]⟩⟩ true true rfl

/-- C5 counterexample: the delay gate called with seconds = 0 does sleep —
the countdown loop is empty but the unconditional final half-second pause
(500 ms) still runs, so the sleep list is not empty. -/
theorem C5_zero_delay_still_pauses : do_delay_sleeps (some 0) ≠ [] := by
  decide

/-- C5 (amended): the delay gate with seconds = None returns immediately
with no sleep at all; with seconds = 0 it performs no per-second countdown
sleep but still performs the single final half-second (500 ms) pause. -/
theorem C5_delay_gate : do_delay_sleeps none = [] ∧
    do_delay_sleeps (some 0) = [500] :=
  ⟨rfl, rfl⟩

/-- C6: for every sample format outside the closed set {f32, i32, i16, i8},
in either device direction, write_wav (with the file creatable) returns
Error.StreamConfigFormatError and leaves the builder untouched — no stream
is built with any substitute encoding. -/
theorem C6_unsupported_format (s : StreamBuilder) (backend_ok : Bool)
    (h : s.config.sample_format ≠ .f32 ∧ s.config.sample_format ≠ .i32 ∧
         s.config.sample_format ≠ .i16 ∧ s.config.sample_format ≠ .i8) :
    (write_wav s (.ok ()) backend_ok).result =
        .error .StreamConfigFormatError ∧
    (write_wav s (.ok ()) backend_ok).builder = s := by
  obtain ⟨h1, h2, h3, h4⟩ := h
  have hd : dispatch_sample_type s.config.sample_format = none := by
    cases hf : s.config.sample_format <;> simp_all [dispatch_sample_type]
  cases hk : s.kind <;> simp [write_wav, hk, hd]

/-- Witness for C6: a u16-format device in the input direction. -/
theorem C6_unsupported_format_run :
    (write_wav sb_u16 (.ok ()) true).result =
        .error .StreamConfigFormatError ∧
    (write_wav sb_u16 (.ok ()) true).builder = sb_u16 :=
  C6_unsupported_format sb_u16 true
    ⟨by decide, by decide, by decide, by decide⟩

/-- C7: play on a StreamBuilder whose stream slot is empty returns Ok(())
for every backend outcome; it never reaches the backend and never panics. -/
theorem C7_play_without_stream (s : StreamBuilder) (play_ok : Bool)
    (h : s.stream = none) : play s play_ok = .ok () := by
  simp [play, h]

/-- Witness for C7: play on the fresh f32 builder, with a backend that would
fail play, still returns Ok(()). -/
theorem C7_play_without_stream_run : play sb_f32 false = .ok () :=
  C7_play_without_stream sb_f32 false rfl

/-- C8: as_input changes only which callback registration function write_wav
later invokes.  Every other field of the builder — device, config, stream
slot, channel endpoints — is unchanged, and for every oracle outcome the
write_wav result differs only in the direction of the built stream, which
becomes Input; the file header, the returned value, and the config and
sample type of the built stream are identical. -/
theorem C8_as_input_only_direction (s : StreamBuilder) (c : Except String Unit)
    (b : Bool) (h : s.stream = none) :
    (as_input s).device = s.device ∧ (as_input s).config = s.config ∧
    (as_input s).stream = s.stream ∧ (as_input s).sender = s.sender ∧
    (as_input s).receiver = s.receiver ∧
    (write_wav (as_input s) c b).file = (write_wav s c b).file ∧
    (write_wav (as_input s) c b).result = (write_wav s c b).result ∧
    Option.map Stream.config (write_wav (as_input s) c b).builder.stream =
      Option.map Stream.config (write_wav s c b).builder.stream ∧
    Option.map Stream.sample_type
        (write_wav (as_input s) c b).builder.stream =
      Option.map Stream.sample_type (write_wav s c b).builder.stream ∧
    ∀ st : Stream, (write_wav (as_input s) c b).builder.stream = some st →
      st.direction = .Input := by
  obtain ⟨dev, cfg, st0, sn, rc, k⟩ := s
  cases h
  cases c with
  | error e => simp [as_input, write_wav]
  | ok u =>
    cases k <;> cases hd : dispatch_sample_type cfg.sample_format <;>
      cases b <;> simp [as_input, write_wav, hd]

/-- Witness for C8: an output-direction builder redirected with as_input;
checked with a creatable file and an accepting backend. -/
theorem C8_as_input_only_direction_run :
    (as_input (as_output sb_f32)).device = (as_output sb_f32).device ∧
    (as_input (as_output sb_f32)).config = (as_output sb_f32).config ∧
    (as_input (as_output sb_f32)).stream = (as_output sb_f32).stream ∧
    (as_input (as_output sb_f32)).sender = (as_output sb_f32).sender ∧
    (as_input (as_output sb_f32)).receiver = (as_output sb_f32).receiver ∧
    (write_wav (as_input (as_output sb_f32)) (.ok ()) true).file =
      (write_wav (as_output sb_f32) (.ok ()) true).file ∧
    (write_wav (as_input (as_output sb_f32)) (.ok ()) true).result =
      (write_wav (as_output sb_f32) (.ok ()) true).result ∧
    Option.map Stream.config
        (write_wav (as_input (as_output sb_f32)) (.ok ()) true).builder.stream =
      Option.map Stream.config
        (write_wav (as_output sb_f32) (.ok ()) true).builder.stream ∧
    Option.map Stream.sample_type
        (write_wav (as_input (as_output sb_f32)) (.ok ()) true).builder.stream =
      Option.map Stream.sample_type
        (write_wav (as_output sb_f32) (.ok ()) true).builder.stream ∧
    ∀ st : Stream,
      (write_wav (as_input (as_output sb_f32)) (.ok ()) true).builder.stream =
        some st → st.direction = .Input :=
  C8_as_input_only_direction (as_output sb_f32) (.ok ()) true rfl

/-- C9: whenever write_wav fails with the unsupported-format error or the
stream-creation error, the writer had already been created, so a file with
the header from the device configuration exists at the destination and the
error path does not remove it. -/
theorem C9_file_survives_error (s : StreamBuilder) (c : Except String Unit)
    (b : Bool)
    (h : (write_wav s c b).result = .error .StreamConfigFormatError ∨
         (write_wav s c b).result = .error .StreamCreationError) :
    (write_wav s c b).file = some (as_wav_spec s.device.config) := by
  cases c with
  | error e => simp [write_wav] at h
  | ok u =>
    cases hk : s.kind <;>
      cases hd : dispatch_sample_type s.config.sample_format <;>
      cases b <;> simp_all [write_wav]

/-- Witness for C9: the u16 builder fails the format dispatch, yet the file
with the u16-derived header has been created. -/
theorem C9_file_survives_error_run :
    (write_wav sb_u16 (.ok ()) true).file =
      some (as_wav_spec sb_u16.device.config) :=
  C9_file_survives_error sb_u16 (.ok ()) true (Or.inl rfl)

/-- C10: on a poisoned writer-slot mutex, both the append path and the
finalize path silently do nothing: write_wav_data returns normally with the
slot unchanged (samples dropped), and finalize changes nothing, closes no
file and reports success — no diagnostic either way. -/
theorem C10_poisoned_lock_silent {T : Type} (data : List T) (m : WriterSlot T)
    (dk df : Bool) (hp : m.poisoned = true) :
    write_wav_data data m dk = some m ∧
    finalize m df = (m, false, Except.ok ()) := by
  obtain ⟨p, v⟩ := m
  subst hp
  simp [write_wav_data, finalize, MutexState.lock]

/-- Witness for C10: a poisoned slot still holding a writer; append and
finalize both leave it untouched. -/
theorem C10_poisoned_lock_silent_run :
    write_wav_data [(3 : Int)] ⟨true, some ⟨spec0, [1]⟩⟩ true =
      some ⟨true, some ⟨spec0, [1]⟩⟩ ∧
    finalize (⟨true, some ⟨spec0, [1]⟩⟩ : WriterSlot Int) true =
      (⟨true, some ⟨spec0, [1]⟩⟩, false, Except.ok ()) :=
  C10_poisoned_lock_silent [(3 : Int)] ⟨true, some ⟨spec0, [1]⟩⟩ true true rfl

/-- The StreamBuilder that StreamBuilder::from returns for `db0` after the
use_config override to `cfg_i16`: the device field carries the override,
while the config field is the re-queried device default `cfg_f32`. -/
def c1_sb : StreamBuilder :=
  { device := use_config db0 cfg_i16, config := cfg_f32, stream := none,
    sender := none, receiver := none, kind := .Input }

/-- C1 (code bug, evaluated): resolving the default input device of `dev0`,
overriding its configuration with use_config to `cfg_i16`, and building the
stream, write_wav writes the file header from the overridden configuration
(mono, 8000 Hz, 16-bit integer) while it selects the callback sample type
and the hardware stream config from the re-queried device default (stereo,
44100 Hz, f32) — the header and the callback disagree, violating the
header/callback invariant of the spec. -/
theorem C1_use_config_mismatch :
    new_default_input (some dev0) = .ok db0 ∧
    StreamBuilder.from (use_config db0 cfg_i16) = .ok c1_sb ∧
    (write_wav c1_sb (.ok ()) true).file = some (as_wav_spec cfg_i16) ∧
    (write_wav c1_sb (.ok ()) true).builder.stream =
      some { config := cfg_f32, direction := .Input, sample_type := .f32 } ∧
    as_wav_spec cfg_i16 ≠ as_wav_spec cfg_f32 :=
  ⟨rfl, rfl, rfl, rfl, by decide⟩

end Audiort
